import Mathlib

/-
Shallow embedding of the blacklight sources under verification:
the ray-trace CLI driver (main), the formula radiative-transfer
coefficients (RadiationIntegrator::CalculateFormulaCoefficients), the
RadiationIntegrator constructor validation sequence, the Integrate
driver loop, and the FindZTurnings diagnostic counter.

Doubles are modelled as real numbers; quiet NaN written into the
coefficient arrays is modelled by a dedicated constructor of `CoefVal`.
-/

namespace Blacklight

/-- Outcome of `input_reader inputs(input_file)` in the driver: normal
return, a thrown `ray_trace_exception` carrying its message, or any other
thrown exception. -/
inductive ReadInputResult where
  | ok : ReadInputResult
  | rayTraceError : String → ReadInputResult
  | otherError : ReadInputResult

/-- The driver `main` from the ray-trace main file: given the argument
count and the outcome of reading the input file, returns the lines printed
on standard output and the returned exit status.  Mirrors the source: the
`argc != 2` branch prints and returns 1; a `ray_trace_exception` is caught,
its message printed, and 1 returned; the catch-all branch prints its
message and then control falls through to the final `return 0`. -/
def rayTraceMain (argc : ℕ) (read : ReadInputResult) : List String × ℤ :=
  if argc ≠ 2 then
    (["Error: Must give a single input file.\n"], 1)
  else
    match read with
    | ReadInputResult.ok => ([], 0)
    | ReadInputResult.rayTraceError msg => ([msg], 1)
    | ReadInputResult.otherError => (["Error: Could not read input file.\n"], 0)

/-- Value held by one entry of a coefficient array after
`CalculateFormulaCoefficients` runs: never written by the routine, written
as quiet NaN, or written as an ordinary double. -/
inductive CoefVal where
  | unwritten : CoefVal
  | nan : CoefVal
  | val : ℝ → CoefVal

/-- Two-argument arctangent, the semantics of `std::atan2(y, x)` on
ordinary (non-NaN) doubles. -/
noncomputable def atan2 (y x : ℝ) : ℝ :=
  if 0 < x then Real.arctan (y / x)
  else if x < 0 ∧ 0 ≤ y then Real.arctan (y / x) + Real.pi
  else if x < 0 ∧ y < 0 then Real.arctan (y / x) - Real.pi
  else if x = 0 ∧ 0 < y then Real.pi / 2
  else if x = 0 ∧ y < 0 then -(Real.pi / 2)
  else 0

/-- Modelled from the spec: `GeodesicIntegrator::RadialGeodesicCoordinate`
is declared in geodesic_integrator.hpp but geodesic_geometry.cpp is not in
src.  Spec 4.A defines r implicitly as the nonnegative root of
r^4 - (x^2+y^2+z^2-a^2) r^2 - a^2 z^2 = 0; this is that root in closed
form. -/
noncomputable def RadialGeodesicCoordinate (bh_a x y z : ℝ) : ℝ :=
  Real.sqrt (((x ^ 2 + y ^ 2 + z ^ 2 - bh_a ^ 2)
    + Real.sqrt ((x ^ 2 + y ^ 2 + z ^ 2 - bh_a ^ 2) ^ 2
        + 4 * bh_a ^ 2 * z ^ 2)) / 2)

/-- The member state read by `RadiationIntegrator::CalculateFormulaCoefficients`:
model parameters copied by the constructor, the momentum factor, the
fallback policy, and the shallow-copied geodesic sample arrays. -/
structure FormulaState where
  bh_m : ℝ
  bh_a : ℝ
  formula_r0 : ℝ
  formula_h : ℝ
  formula_l0 : ℝ
  formula_q : ℝ
  formula_nup : ℝ
  formula_cn0 : ℝ
  formula_alpha : ℝ
  formula_a : ℝ
  formula_beta : ℝ
  momentum_factor : ℝ
  fallback_nan : Bool
  sample_num : ℕ → ℤ
  sample_flags : ℕ → Bool
  sample_pos : ℕ → ℕ → ℕ → ℝ
  sample_dir : ℕ → ℕ → ℕ → ℝ

namespace FormulaCoefficients

/-- Local `x` of the sample loop: `sample_pos(m,n,1)`. -/
noncomputable def x (c : FormulaState) (m n : ℕ) : ℝ := c.sample_pos m n 1

/-- Local `y` of the sample loop: `sample_pos(m,n,2)`. -/
noncomputable def y (c : FormulaState) (m n : ℕ) : ℝ := c.sample_pos m n 2

/-- Local `z` of the sample loop: `sample_pos(m,n,3)`. -/
noncomputable def z (c : FormulaState) (m n : ℕ) : ℝ := c.sample_pos m n 3

/-- Local `k_0`: `sample_dir(m,n,0)`. -/
noncomputable def k_0 (c : FormulaState) (m n : ℕ) : ℝ := c.sample_dir m n 0

/-- Local `k_1`: `sample_dir(m,n,1)`. -/
noncomputable def k_1 (c : FormulaState) (m n : ℕ) : ℝ := c.sample_dir m n 1

/-- Local `k_2`: `sample_dir(m,n,2)`. -/
noncomputable def k_2 (c : FormulaState) (m n : ℕ) : ℝ := c.sample_dir m n 2

/-- Local `k_3`: `sample_dir(m,n,3)`. -/
noncomputable def k_3 (c : FormulaState) (m n : ℕ) : ℝ := c.sample_dir m n 3

/-- Local `r = RadialGeodesicCoordinate(x, y, z)`. -/
noncomputable def r (c : FormulaState) (m n : ℕ) : ℝ :=
  RadialGeodesicCoordinate c.bh_a (x c m n) (y c m n) (z c m n)

/-- Local `rr = sqrt(r * r - z * z)`. -/
noncomputable def rr (c : FormulaState) (m n : ℕ) : ℝ :=
  Real.sqrt (r c m n * r c m n - z c m n * z c m n)

/-- Local `cth = z / r`. -/
noncomputable def cth (c : FormulaState) (m n : ℕ) : ℝ := z c m n / r c m n

/-- Local `sth = sqrt(1.0 - cth * cth)`. -/
noncomputable def sth (c : FormulaState) (m n : ℕ) : ℝ :=
  Real.sqrt (1 - cth c m n * cth c m n)

/-- Local `ph = atan2(y, x) - atan(bh_a / r)`. -/
noncomputable def ph (c : FormulaState) (m n : ℕ) : ℝ :=
  atan2 (y c m n) (x c m n) - Real.arctan (c.bh_a / r c m n)

/-- Local `sph = sin(ph)`. -/
noncomputable def sph (c : FormulaState) (m n : ℕ) : ℝ := Real.sin (ph c m n)

/-- Local `cph = cos(ph)`. -/
noncomputable def cph (c : FormulaState) (m n : ℕ) : ℝ := Real.cos (ph c m n)

/-- Local `delta = r * r - 2.0 * bh_m * r + bh_a * bh_a`. -/
noncomputable def delta (c : FormulaState) (m n : ℕ) : ℝ :=
  r c m n * r c m n - 2 * c.bh_m * r c m n + c.bh_a * c.bh_a

/-- Local `sigma = r * r + bh_a * bh_a * cth * cth`. -/
noncomputable def sigma (c : FormulaState) (m n : ℕ) : ℝ :=
  r c m n * r c m n + c.bh_a * c.bh_a * cth c m n * cth c m n

/-- Local `gtt_bl = -(1.0 + 2.0 * bh_m * r * (r * r + bh_a * bh_a) / (delta * sigma))`. -/
noncomputable def gtt_bl (c : FormulaState) (m n : ℕ) : ℝ :=
  -(1 + 2 * c.bh_m * r c m n * (r c m n * r c m n + c.bh_a * c.bh_a)
      / (delta c m n * sigma c m n))

/-- Local `gtph_bl = -2.0 * bh_m * bh_a * r / (delta * sigma)`. -/
noncomputable def gtph_bl (c : FormulaState) (m n : ℕ) : ℝ :=
  -(2 * c.bh_m * c.bh_a * r c m n / (delta c m n * sigma c m n))

/-- Local `grr_bl = delta / sigma`. -/
noncomputable def grr_bl (c : FormulaState) (m n : ℕ) : ℝ :=
  delta c m n / sigma c m n

/-- Local `gthth_bl = 1.0 / sigma`. -/
noncomputable def gthth_bl (c : FormulaState) (m n : ℕ) : ℝ := 1 / sigma c m n

/-- Local `gphph_bl = (sigma - 2.0 * bh_m * r) / (delta * sigma * sth * sth)`. -/
noncomputable def gphph_bl (c : FormulaState) (m n : ℕ) : ℝ :=
  (sigma c m n - 2 * c.bh_m * r c m n)
    / (delta c m n * sigma c m n * sth c m n * sth c m n)

/-- Local `ll = formula_l0 / (1.0 + rr) * pow(rr, 1.0 + formula_q)` (C 6). -/
noncomputable def ll (c : FormulaState) (m n : ℕ) : ℝ :=
  c.formula_l0 / (1 + rr c m n) * Real.rpow (rr c m n) (1 + c.formula_q)

/-- Local `u_norm = 1.0 / sqrt(-gtt_bl + 2.0 * gtph_bl * ll - gphph_bl * ll * ll)` (C 7). -/
noncomputable def u_norm (c : FormulaState) (m n : ℕ) : ℝ :=
  1 / Real.sqrt (-gtt_bl c m n + 2 * gtph_bl c m n * ll c m n
    - gphph_bl c m n * ll c m n * ll c m n)

/-- Local `u_t_bl = -u_norm`. -/
noncomputable def u_t_bl (c : FormulaState) (m n : ℕ) : ℝ := -u_norm c m n

/-- Local `u_r_bl = 0.0`. -/
noncomputable def u_r_bl (_c : FormulaState) (_m _n : ℕ) : ℝ := 0

/-- Local `u_th_bl = 0.0`. -/
noncomputable def u_th_bl (_c : FormulaState) (_m _n : ℕ) : ℝ := 0

/-- Local `u_ph_bl = u_norm * ll`. -/
noncomputable def u_ph_bl (c : FormulaState) (m n : ℕ) : ℝ :=
  u_norm c m n * ll c m n

/-- Local `ut_bl = gtt_bl * u_t_bl + gtph_bl * u_ph_bl`. -/
noncomputable def ut_bl (c : FormulaState) (m n : ℕ) : ℝ :=
  gtt_bl c m n * u_t_bl c m n + gtph_bl c m n * u_ph_bl c m n

/-- Local `ur_bl = grr_bl * u_r_bl`. -/
noncomputable def ur_bl (c : FormulaState) (m n : ℕ) : ℝ :=
  grr_bl c m n * u_r_bl c m n

/-- Local `uth_bl = gthth_bl * u_th_bl`. -/
noncomputable def uth_bl (c : FormulaState) (m n : ℕ) : ℝ :=
  gthth_bl c m n * u_th_bl c m n

/-- Local `uph_bl = gtph_bl * u_t_bl + gphph_bl * u_ph_bl`. -/
noncomputable def uph_bl (c : FormulaState) (m n : ℕ) : ℝ :=
  gtph_bl c m n * u_t_bl c m n + gphph_bl c m n * u_ph_bl c m n

/-- Local `ut = ut_bl + 2.0 * bh_m * r / delta * ur_bl`. -/
noncomputable def ut (c : FormulaState) (m n : ℕ) : ℝ :=
  ut_bl c m n + 2 * c.bh_m * r c m n / delta c m n * ur_bl c m n

/-- Local `ur = ur_bl`. -/
noncomputable def ur (c : FormulaState) (m n : ℕ) : ℝ := ur_bl c m n

/-- Local `uth = uth_bl`. -/
noncomputable def uth (c : FormulaState) (m n : ℕ) : ℝ := uth_bl c m n

/-- Local `uph = uph_bl + bh_a / delta * ur_bl`. -/
noncomputable def uph (c : FormulaState) (m n : ℕ) : ℝ :=
  uph_bl c m n + c.bh_a / delta c m n * ur_bl c m n

/-- Local `u0 = ut`. -/
noncomputable def u0 (c : FormulaState) (m n : ℕ) : ℝ := ut c m n

/-- Local `u1 = sth*cph*ur + cth*(r*cph - bh_a*sph)*uth + sth*(-r*sph - bh_a*cph)*uph`. -/
noncomputable def u1 (c : FormulaState) (m n : ℕ) : ℝ :=
  sth c m n * cph c m n * ur c m n
    + cth c m n * (r c m n * cph c m n - c.bh_a * sph c m n) * uth c m n
    + sth c m n * (-(r c m n * sph c m n) - c.bh_a * cph c m n) * uph c m n

/-- Local `u2 = sth*sph*ur + cth*(r*sph + bh_a*cph)*uth + sth*(r*cph - bh_a*sph)*uph`. -/
noncomputable def u2 (c : FormulaState) (m n : ℕ) : ℝ :=
  sth c m n * sph c m n * ur c m n
    + cth c m n * (r c m n * sph c m n + c.bh_a * cph c m n) * uth c m n
    + sth c m n * (r c m n * cph c m n - c.bh_a * sph c m n) * uph c m n

/-- Local `u3 = cth*ur - r*sth*uth`. -/
noncomputable def u3 (c : FormulaState) (m n : ℕ) : ℝ :=
  cth c m n * ur c m n - r c m n * sth c m n * uth c m n

/-- Local `n_n0_fluid = exp(-0.5 * (r*r/(formula_r0*formula_r0) + formula_h*formula_h*cth*cth))` (C 5). -/
noncomputable def n_n0_fluid (c : FormulaState) (m n : ℕ) : ℝ :=
  Real.exp (-(0.5) * (r c m n * r c m n / (c.formula_r0 * c.formula_r0)
    + c.formula_h * c.formula_h * cth c m n * cth c m n))

/-- Local `nu_fluid_cgs = -(u0*k_0 + u1*k_1 + u2*k_2 + u3*k_3) * momentum_factor`. -/
noncomputable def nu_fluid_cgs (c : FormulaState) (m n : ℕ) : ℝ :=
  -(u0 c m n * k_0 c m n + u1 c m n * k_1 c m n + u2 c m n * k_2 c m n
    + u3 c m n * k_3 c m n) * c.momentum_factor

/-- Local `j_nu_fluid_cgs = formula_cn0 * n_n0_fluid * pow(nu_fluid_cgs / formula_nup, -formula_alpha)` (C 9-10). -/
noncomputable def j_nu_fluid_cgs (c : FormulaState) (m n : ℕ) : ℝ :=
  c.formula_cn0 * n_n0_fluid c m n
    * Real.rpow (nu_fluid_cgs c m n / c.formula_nup) (-c.formula_alpha)

/-- Value stored as `j_i(m,n) = j_nu_fluid_cgs / (nu_fluid_cgs * nu_fluid_cgs)`. -/
noncomputable def j_stored (c : FormulaState) (m n : ℕ) : ℝ :=
  j_nu_fluid_cgs c m n / (nu_fluid_cgs c m n * nu_fluid_cgs c m n)

/-- Local `alpha_nu_fluid_cgs = formula_a * formula_cn0 * n_n0_fluid * pow(nu_fluid_cgs / formula_nup, -formula_beta - formula_alpha)` (C 11-12). -/
noncomputable def alpha_nu_fluid_cgs (c : FormulaState) (m n : ℕ) : ℝ :=
  c.formula_a * c.formula_cn0 * n_n0_fluid c m n
    * Real.rpow (nu_fluid_cgs c m n / c.formula_nup)
        (-c.formula_beta - c.formula_alpha)

/-- Value stored as `alpha_i(m,n) = alpha_nu_fluid_cgs * nu_fluid_cgs`. -/
noncomputable def alpha_stored (c : FormulaState) (m n : ℕ) : ℝ :=
  alpha_nu_fluid_cgs c m n * nu_fluid_cgs c m n

/-- Entry `j_i(m,n)` after `CalculateFormulaCoefficients`: the pixel loop
skips pixels with `sample_num(m) <= 0`, writes NaN into steps
`n < sample_num(m)` when `fallback_nan` is set and the ray is flagged, and
otherwise writes the computed emission coefficient there. -/
noncomputable def j_i (c : FormulaState) (m n : ℕ) : CoefVal :=
  if 0 < c.sample_num m ∧ (n : ℤ) < c.sample_num m then
    if c.fallback_nan ∧ c.sample_flags m then CoefVal.nan
    else CoefVal.val (j_stored c m n)
  else CoefVal.unwritten

/-- Entry `alpha_i(m,n)` after `CalculateFormulaCoefficients`; same control
flow as `j_i`. -/
noncomputable def alpha_i (c : FormulaState) (m n : ℕ) : CoefVal :=
  if 0 < c.sample_num m ∧ (n : ℤ) < c.sample_num m then
    if c.fallback_nan ∧ c.sample_flags m then CoefVal.nan
    else CoefVal.val (alpha_stored c m n)
  else CoefVal.unwritten

end FormulaCoefficients

/-- Model type selector from the input reader. -/
inductive ModelType where
  | simulation : ModelType
  | formula : ModelType
deriving DecidableEq

/-- The input-reader fields consulted by the RadiationIntegrator
constructor's validation logic.  All optionals are modelled as present
(absent required options would raise `bad_optional_access`, outside the
modelled behaviour). -/
structure InputConfig where
  model_type : ModelType
  checkpoint_sample_save : Bool
  checkpoint_sample_load : Bool
  plasma_power_frac : ℝ
  plasma_kappa_frac : ℝ
  plasma_kappa : ℝ
  slow_light_on : Bool
  image_light : Bool
  image_polarization : Bool
  image_time : Bool
  image_length : Bool
  image_lambda : Bool
  image_emission : Bool
  image_tau : Bool
  image_lambda_ave : Bool
  image_emission_ave : Bool
  image_tau_int : Bool
  render_num_images : ℤ
  render_num_features : ℕ → ℤ
  adaptive_max_level : ℤ
  adaptive_block_size : ℤ
  camera_resolution : ℤ

/-- Member `image_lambda_ave` after the constructor's copy: the input value
in simulation mode, forced false otherwise. -/
def imageLambdaAveMem (c : InputConfig) : Bool :=
  if c.model_type = ModelType.simulation then c.image_lambda_ave else false

/-- Member `image_emission_ave` after the constructor's copy. -/
def imageEmissionAveMem (c : InputConfig) : Bool :=
  if c.model_type = ModelType.simulation then c.image_emission_ave else false

/-- Member `image_tau_int` after the constructor's copy. -/
def imageTauIntMem (c : InputConfig) : Bool :=
  if c.model_type = ModelType.simulation then c.image_tau_int else false

/-- Member `render_num_images` after the constructor's copy: the input
value in simulation mode, forced 0 otherwise. -/
def renderNumImagesMem (c : InputConfig) : ℤ :=
  if c.model_type = ModelType.simulation then c.render_num_images else 0

/-- Condition of the `No image or rendering selected` check (member
values): no image selection is on and no image is rendered. -/
def noImageOrRendering (c : InputConfig) : Prop :=
  ¬(c.image_light ∨ c.image_time ∨ c.image_length ∨ c.image_lambda
    ∨ c.image_emission ∨ c.image_tau ∨ imageLambdaAveMem c
    ∨ imageEmissionAveMem c ∨ imageTauIntMem c ∨ 0 < renderNumImagesMem c)

instance noImageOrRenderingDec (c : InputConfig) : Decidable (noImageOrRendering c) := by
  unfold noImageOrRendering
  infer_instance

/-- The validation sequence of the RadiationIntegrator constructor:
warnings issued (in source order, up to the first throw) and either the
message of the first `BlacklightException` thrown or success.  Mirrors the
constructor body: checkpoint section, plasma fraction warnings, slow-light
exclusivity, image/polarization section with the kappa gate, ignored
selections in formula mode, rendering features, the no-image check, and
the adaptive section. -/
noncomputable def runConstructor (c : InputConfig) : List String × Except String Unit :=
  let w1 : List String :=
    if c.model_type = ModelType.simulation then []
    else
      (if c.checkpoint_sample_save then ["Ignoring checkpoint_sample_save selection."] else [])
        ++ (if c.checkpoint_sample_load then ["Ignoring checkpoint_sample_load selection."] else [])
  if c.model_type = ModelType.simulation ∧ c.checkpoint_sample_save ∧ c.checkpoint_sample_load then
    (w1, Except.error "Cannot both save and load a sample checkpoint.")
  else
    let w2 := w1 ++
      (if c.model_type = ModelType.simulation then
        (if c.plasma_power_frac < 0 ∨ 1 < c.plasma_power_frac then
          ["Fraction of power-law electrons outside [0, 1]."] else [])
        ++ (if c.plasma_kappa_frac < 0 ∨ 1 < c.plasma_kappa_frac then
          ["Fraction of kappa-distribution electrons outside [0, 1]."] else [])
        ++ (if 1 - (c.plasma_power_frac + c.plasma_kappa_frac) < 0
              ∨ 1 < 1 - (c.plasma_power_frac + c.plasma_kappa_frac) then
          ["Fraction of thermal electrons outside [0, 1]."] else [])
      else [])
    if c.model_type = ModelType.simulation ∧ c.slow_light_on
        ∧ (c.checkpoint_sample_save ∨ c.checkpoint_sample_load) then
      (w2, Except.error "Cannot use sample checkpoints with slow light.")
    else
      let w3 := w2 ++
        (if c.image_light then
          (if c.model_type ≠ ModelType.simulation ∧ c.image_polarization then
            ["Ignoring image_polarization selection."] else [])
        else
          (if c.image_polarization then
            ["Ignoring image_polarization selection."] else []))
      if c.image_light ∧ c.model_type = ModelType.simulation ∧ c.image_polarization
          ∧ c.plasma_kappa_frac ≠ 0 ∧ (c.plasma_kappa < 3.5 ∨ 5 < c.plasma_kappa) then
        (w3, Except.error "Polarized transport only supports kappa in [3.5, 5].")
      else
        let w4 := w3 ++
          (if c.image_light ∧ c.model_type = ModelType.simulation ∧ c.image_polarization
              ∧ c.plasma_kappa_frac ≠ 0 ∧ c.plasma_kappa ≠ 3.5 ∧ c.plasma_kappa ≠ 4.0
              ∧ c.plasma_kappa ≠ 4.5 ∧ c.plasma_kappa ≠ 5.0 then
            ["Polarized transport will interpolate formulas based on kappa."] else [])
        let w5 := w4 ++
          (if c.model_type = ModelType.simulation then []
          else
            (if c.image_lambda_ave then ["Ignoring image_lambda_ave selection."] else [])
              ++ (if c.image_emission_ave then ["Ignoring image_emission_ave selection."] else [])
              ++ (if c.image_tau_int then ["Ignoring image_tau_int selection."] else []))
        let w6 := w5 ++
          (if c.model_type ≠ ModelType.simulation ∧ 0 < c.render_num_images then
            ["Ignoring request for rendering."] else [])
        (w6,
          if (List.range (renderNumImagesMem c).toNat).any
              (fun i => decide (c.render_num_features i ≤ 0)) then
            Except.error "Must have positive number of features for each rendered image."
          else if noImageOrRendering c then
            Except.error "No image or rendering selected."
          else if 0 < c.adaptive_max_level then
            if ¬c.image_light then
              Except.error "Adaptive ray tracing requires image_light."
            else if c.adaptive_block_size ≤ 0 then
              Except.error "Must have positive adaptive_block_size."
            else if c.camera_resolution % c.adaptive_block_size ≠ 0 then
              Except.error "Must have adaptive_block_size divide camera_resolution."
            else
              Except.ok ()
          else
            Except.ok ())

namespace IntegrateModel

/-- Configuration fields of the RadiationIntegrator read by `Integrate`. -/
structure Cfg where
  model_type : ModelType
  checkpoint_sample_load : Bool
  checkpoint_sample_save : Bool
  slow_light_on : Bool
  image_light : Bool
  image_polarization : Bool
  image_time : Bool
  image_length : Bool
  image_lambda : Bool
  image_emission : Bool
  image_tau : Bool
  image_lambda_ave : Bool
  image_emission_ave : Bool
  image_tau_int : Bool
  render_num_images : ℤ
  adaptive_max_level : ℤ

/-- Modelled from the spec: the subroutines `Integrate` dispatches to
(grid loading, sampling, checkpoint loading, coefficient evaluation,
radiative transfer, rendering, refinement check) live in translation units
that are not in src; following spec 4.D-4.G and the concurrency section
(deterministic, per-pixel disjoint writes), each is a pure function of
exactly the data it reads, over abstract data types:
`calculateSimulationSampling` takes the snapshot index and the adaptive
level, `sampleSimulation` the grid and the sampling, the coefficient and
transfer routines their upstream arrays, `checkAdaptiveRefinement` the
image and the current level. -/
structure Subs (Grid Sampling Samples Coefs Image RenderOut : Type) where
  obtainGridData : Unit → Grid
  calculateSimulationSampling : ℤ → ℤ → Sampling
  loadSampling : Unit → Sampling
  sampleSimulation : Grid → Sampling → Samples
  calculateSimulationCoefficients : Samples → Coefs
  integratePolarizedRadiation : Coefs → Samples → Image
  integrateUnpolarizedRadiation : Coefs → Samples → Image
  renderImages : Coefs → Samples → RenderOut
  calculateFormulaCoefficients : Unit → Coefs
  checkAdaptiveRefinement : Image → ℤ → Bool

/-- Mutable RadiationIntegrator state read and written by `Integrate`. -/
structure IntState (Grid Sampling Samples Coefs Image RenderOut : Type) where
  first_time : Bool
  adaptive_level : ℤ
  adaptive_num_levels : ℤ
  grid : Grid
  sampling : Sampling
  samples : Samples
  coefs : Coefs
  image : Image
  renderOut : RenderOut

/-- Result of one call to `Integrate`: the updated object state, the
returned completion flag, and the updated values of the in-out timers
`*p_time_sample` and `*p_time_integrate`. -/
structure IntResult (Grid Sampling Samples Coefs Image RenderOut : Type) where
  state : IntState Grid Sampling Samples Coefs Image RenderOut
  complete : Bool
  time_sample : ℝ
  time_integrate : ℝ

/-- `RadiationIntegrator::Integrate`.  `clock` gives the successive values
returned by `omp_get_wtime` during the call (the simulation branch samples
it at the start of sampling, the end of sampling, and after the adaptive
check; the formula branch only for the integration phase).  Mirrors the
source: the simulation branch re-obtains grid data only on the first call,
re-samples on refinement levels, first call (checkpoint load or fresh), or
slow light; both branches recompute coefficients and the image; the
adaptive check resets or advances the level; `first_time` is cleared; the
timers are incremented by the elapsed intervals. -/
def Integrate {Grid Sampling Samples Coefs Image RenderOut : Type}
    (cfg : Cfg) (subs : Subs Grid Sampling Samples Coefs Image RenderOut)
    (snapshot : ℤ) (clock : ℕ → ℝ)
    (s : IntState Grid Sampling Samples Coefs Image RenderOut)
    (time_sample time_integrate : ℝ) :
    IntResult Grid Sampling Samples Coefs Image RenderOut :=
  let sim := cfg.model_type = ModelType.simulation
  let time_sample_start : ℝ := if sim then clock 0 else 0
  let time_sample_end : ℝ := if sim then clock 1 else 0
  let time_integrate_start : ℝ := if sim then clock 1 else clock 0
  let time_integrate_end : ℝ := if sim then clock 2 else clock 1
  let grid1 := if sim ∧ s.first_time then subs.obtainGridData () else s.grid
  let sampling1 :=
    if sim then
      if 0 < s.adaptive_level then
        subs.calculateSimulationSampling snapshot s.adaptive_level
      else if s.first_time then
        (if cfg.checkpoint_sample_load then subs.loadSampling ()
         else subs.calculateSimulationSampling snapshot s.adaptive_level)
      else if cfg.slow_light_on then
        subs.calculateSimulationSampling snapshot s.adaptive_level
      else s.sampling
    else s.sampling
  let samples1 := if sim then subs.sampleSimulation grid1 sampling1 else s.samples
  let coefs1 :=
    if sim then subs.calculateSimulationCoefficients samples1
    else subs.calculateFormulaCoefficients ()
  let image1 :=
    if sim then
      if cfg.image_light ∧ cfg.image_polarization then
        subs.integratePolarizedRadiation coefs1 samples1
      else if cfg.image_light ∨ cfg.image_time ∨ cfg.image_length ∨ cfg.image_lambda
          ∨ cfg.image_emission ∨ cfg.image_tau ∨ cfg.image_lambda_ave
          ∨ cfg.image_emission_ave ∨ cfg.image_tau_int then
        subs.integrateUnpolarizedRadiation coefs1 samples1
      else s.image
    else subs.integrateUnpolarizedRadiation coefs1 samples1
  let render1 :=
    if sim ∧ 0 < cfg.render_num_images then subs.renderImages coefs1 samples1
    else s.renderOut
  let adaptive_complete :=
    if 0 < cfg.adaptive_max_level then subs.checkAdaptiveRefinement image1 s.adaptive_level
    else true
  { state :=
      { first_time := false
        adaptive_level := if adaptive_complete then 0 else s.adaptive_level + 1
        adaptive_num_levels :=
          if adaptive_complete then s.adaptive_level else s.adaptive_num_levels
        grid := grid1
        sampling := sampling1
        samples := samples1
        coefs := coefs1
        image := image1
        renderOut := render1 }
    complete := adaptive_complete
    time_sample := time_sample + (time_sample_end - time_sample_start)
    time_integrate := time_integrate + (time_integrate_end - time_integrate_start) }

/-- Wall-clock interval one call adds to `*p_time_sample`: the sampling
phase in simulation mode, nothing in formula mode. -/
def sampleDelta (cfg : Cfg) (clock : ℕ → ℝ) : ℝ :=
  if cfg.model_type = ModelType.simulation then clock 1 - clock 0 else 0

/-- Wall-clock interval one call adds to `*p_time_integrate`. -/
def integrateDelta (cfg : Cfg) (clock : ℕ → ℝ) : ℝ :=
  if cfg.model_type = ModelType.simulation then clock 2 - clock 1
  else clock 1 - clock 0

end IntegrateModel

namespace ZTurnings

/-- The fixed minimum stride `MIN_DIFF_N` of the z-turning scan. -/
def MIN_DIFF_N : ℕ := 10

/-- Local `find_1` at step n: product of the z-increments on either side,
`(z(n+1) - z(n)) * (z(n) - z(n-1))`. -/
noncomputable def find_1 (z : ℕ → ℝ) (n : ℕ) : ℝ :=
  (z (n + 1) - z n) * (z n - z (n - 1))

/-- Local `find_n`: product of the z-increments `MIN_DIFF_N` steps away,
`(z(n+MIN_DIFF_N) - z(n)) * (z(n) - z(n-MIN_DIFF_N))`. -/
noncomputable def find_n (z : ℕ → ℝ) (n : ℕ) : ℝ :=
  (z (n + MIN_DIFF_N) - z n) * (z n - z (n - MIN_DIFF_N))

/-- A step at which the scan counts a z-turning: strictly opposite
increments, or a tied increment whose `MIN_DIFF_N`-stride products are
strictly opposite. -/
noncomputable def countedAt (z : ℕ → ℝ) (n : ℕ) : Prop :=
  find_1 z n < 0 ∨ (find_1 z n = 0 ∧ find_n z n < 0)

/-- The `n_start` update run at the end of each loop body (against the
possibly already decremented n):
`if (cut_z_turnings >= 0 && n_start < 0 && z_turnings_count == cut_z_turnings + 1) n_start = n`. -/
def updStart (cut nStart count nVal : ℤ) : ℤ :=
  if 0 ≤ cut ∧ nStart < 0 ∧ count = cut + 1 then nVal else nStart

/-- Result of the scan loop: final count, final `n_start`, and the list of
steps at which a turning test was made, in scan order. -/
structure ScanResult where
  count : ℤ
  nStart : ℤ
  tested : List ℕ

/-- The descending scan loop of `FindZTurnings`.  Mirrors the source loop:
runs while `n >= MIN_DIFF_N`; tests `find_1` (and `find_n` on an exact
tie); after a counted turning skips `MIN_DIFF_N` further steps (the inner
`n -= MIN_DIFF_N` plus the loop decrement); evaluates the `n_start` cut
condition every iteration with the updated count and step. -/
noncomputable def scan (z : ℕ → ℝ) (cut : ℤ) (n : ℕ) (count nStart : ℤ) : ScanResult :=
  if n < MIN_DIFF_N then ⟨count, nStart, []⟩
  else if find_1 z n < 0 then
    let rest := scan z cut (n - MIN_DIFF_N - 1) (count + 1)
      (updStart cut nStart (count + 1) ((n - MIN_DIFF_N : ℕ) : ℤ))
    ⟨rest.count, rest.nStart, n :: rest.tested⟩
  else if find_1 z n = 0 ∧ find_n z n < 0 then
    let rest := scan z cut (n - MIN_DIFF_N - 1) (count + 1)
      (updStart cut nStart (count + 1) ((n - MIN_DIFF_N : ℕ) : ℤ))
    ⟨rest.count, rest.nStart, n :: rest.tested⟩
  else
    let rest := scan z cut (n - 1) count (updStart cut nStart count (n : ℤ))
    ⟨rest.count, rest.nStart, n :: rest.tested⟩
termination_by n
decreasing_by
  all_goals simp only [MIN_DIFF_N] at *
  all_goals omega

/-- `RadiationIntegrator::FindZTurnings` for ray m: scans the ray's z
samples from `num_steps - MIN_DIFF_N - 1` down to `MIN_DIFF_N`, updates
the in-out `n_start` and `z_turnings_count`, and writes the final count
into the image's z-turnings channel at `(image_offset_z_turnings, m)`. -/
noncomputable def FindZTurnings (sample_pos : ℕ → ℕ → ℕ → ℝ) (cut_z_turnings : ℤ)
    (image_offset_z_turnings : ℕ) (image : ℕ → ℕ → ℝ) (m num_steps : ℕ)
    (n_start z_turnings_count : ℤ) : ℤ × ℤ × (ℕ → ℕ → ℝ) :=
  let res := scan (fun n => sample_pos m n 3) cut_z_turnings
    (num_steps - MIN_DIFF_N - 1) z_turnings_count n_start
  (res.nStart, res.count, fun q p =>
    if q = image_offset_z_turnings ∧ p = m then (res.count : ℝ) else image q p)

end ZTurnings

/-- A flagged-ray formula state: `fallback_nan` set and every ray flagged. -/
noncomputable def stateC2 : FormulaState :=
  { bh_m := 0, bh_a := 0, formula_r0 := 1, formula_h := 0, formula_l0 := 0
    formula_q := 0, formula_nup := 1, formula_cn0 := 1, formula_alpha := 0
    formula_a := 1, formula_beta := 0, momentum_factor := 1
    fallback_nan := true
    sample_num := fun _ => 5, sample_flags := fun _ => true
    sample_pos := fun _ _ _ => 0, sample_dir := fun _ _ _ => 0 }

/-- An unflagged formula state with zero spin, zero mass parameter, zero
angular-momentum parameter, samples on the x axis and purely timelike
photon momentum, for which the fluid-frame frequency evaluates to 1. -/
noncomputable def stateC3 : FormulaState :=
  { bh_m := 0, bh_a := 0, formula_r0 := 1, formula_h := 0, formula_l0 := 0
    formula_q := 0, formula_nup := 1, formula_cn0 := 1, formula_alpha := 0
    formula_a := 1, formula_beta := 0, momentum_factor := 1
    fallback_nan := false
    sample_num := fun _ => 5, sample_flags := fun _ => false
    sample_pos := fun _ _ i => if i = 1 then 4 else 0
    sample_dir := fun _ _ i => if i = 0 then -1 else 0 }

/-- Same data as `stateC3`, duplicated so claims do not share witness
inputs. -/
noncomputable def stateC4 : FormulaState :=
  { bh_m := 0, bh_a := 0, formula_r0 := 1, formula_h := 0, formula_l0 := 0
    formula_q := 0, formula_nup := 1, formula_cn0 := 1, formula_alpha := 0
    formula_a := 1, formula_beta := 0, momentum_factor := 1
    fallback_nan := false
    sample_num := fun _ => 5, sample_flags := fun _ => false
    sample_pos := fun _ _ i => if i = 1 then 4 else 0
    sample_dir := fun _ _ i => if i = 0 then -1 else 0 }

/-- A baseline valid input configuration: simulation model, image_light
only, no checkpoints, no slow light, no rendering, no adaptive levels. -/
noncomputable def baseInput : InputConfig :=
  { model_type := ModelType.simulation
    checkpoint_sample_save := false
    checkpoint_sample_load := false
    plasma_power_frac := 0
    plasma_kappa_frac := 0
    plasma_kappa := 4
    slow_light_on := false
    image_light := true
    image_polarization := false
    image_time := false, image_length := false, image_lambda := false
    image_emission := false, image_tau := false, image_lambda_ave := false
    image_emission_ave := false, image_tau_int := false
    render_num_images := 0
    render_num_features := fun _ => 1
    adaptive_max_level := 0
    adaptive_block_size := 1
    camera_resolution := 64 }

/-- Adaptive configuration with a nonpositive block size. -/
noncomputable def cfgC5w : InputConfig :=
  { baseInput with adaptive_max_level := 1, adaptive_block_size := 0 }

/-- Configuration with an image selected that still throws: both sample
checkpoints requested. -/
noncomputable def cfgC6cex : InputConfig :=
  { baseInput with checkpoint_sample_save := true, checkpoint_sample_load := true }

/-- Configuration with no image selection and no rendering. -/
noncomputable def cfgC6w : InputConfig :=
  { baseInput with image_light := false }

/-- Slow light together with a sample-checkpoint save. -/
noncomputable def cfgC9w : InputConfig :=
  { baseInput with slow_light_on := true, checkpoint_sample_save := true }

/-- Polarized kappa configuration inside [3.5, 5] off the tabulated points
that nevertheless throws: both sample checkpoints requested. -/
noncomputable def cfgC10cex : InputConfig :=
  { baseInput with
    image_polarization := true
    plasma_kappa_frac := 0.5
    plasma_kappa := 3.7
    checkpoint_sample_save := true
    checkpoint_sample_load := true }

/-- Polarized kappa configuration inside [3.5, 5] off the tabulated points
with every other check satisfied. -/
noncomputable def cfgC10w : InputConfig :=
  { baseInput with
    image_polarization := true
    plasma_kappa_frac := 0.5
    plasma_kappa := 4.2 }

/-- Trivial subroutine instantiation over unit data. -/
def subsUnit : IntegrateModel.Subs Unit Unit Unit Unit Unit Unit :=
  { obtainGridData := fun _ => ()
    calculateSimulationSampling := fun _ _ => ()
    loadSampling := fun _ => ()
    sampleSimulation := fun _ _ => ()
    calculateSimulationCoefficients := fun _ => ()
    integratePolarizedRadiation := fun _ _ => ()
    integrateUnpolarizedRadiation := fun _ _ => ()
    renderImages := fun _ _ => ()
    calculateFormulaCoefficients := fun _ => ()
    checkAdaptiveRefinement := fun _ _ => true }

/-- Formula-model Integrate configuration with no adaptive levels. -/
def cfgC7w : IntegrateModel.Cfg :=
  { model_type := ModelType.formula
    checkpoint_sample_load := false, checkpoint_sample_save := false
    slow_light_on := false, image_light := true, image_polarization := false
    image_time := false, image_length := false, image_lambda := false
    image_emission := false, image_tau := false, image_lambda_ave := false
    image_emission_ave := false, image_tau_int := false
    render_num_images := 0, adaptive_max_level := 0 }

/-- Fresh unit-data integrator state at level 0. -/
def stateC7w : IntegrateModel.IntState Unit Unit Unit Unit Unit Unit :=
  { first_time := true, adaptive_level := 0, adaptive_num_levels := 0
    grid := (), sampling := (), samples := (), coefs := (), image := ()
    renderOut := () }

/-- Claim C1 (code bug in the driver): with one positional argument, a
non-ray-trace exception from input-file reading prints the single
diagnostic line but then falls through to the final `return 0`, so this
failure path exits with status 0, contradicting the claim that every
failure path returns exit code 1; the other paths behave as claimed
(wrong argument count and a `ray_trace_exception` print one line and
return 1, success returns 0). -/
theorem claim_C1 :
    rayTraceMain 2 ReadInputResult.otherError
        = (["Error: Could not read input file.\n"], 0)
      ∧ rayTraceMain 1 ReadInputResult.ok
        = (["Error: Must give a single input file.\n"], 1)
      ∧ rayTraceMain 2 (ReadInputResult.rayTraceError "Error: bad input.\n")
        = (["Error: bad input.\n"], 1)
      ∧ rayTraceMain 2 ReadInputResult.ok = ([], 0) :=
  ⟨rfl, rfl, rfl, rfl⟩

open FormulaCoefficients in
/-- Claim C2: for a pixel with positive sample count, when `fallback_nan`
is set and the ray is flagged, `CalculateFormulaCoefficients` writes NaN
into `j_i(m,n)` and `alpha_i(m,n)` at every step below the sample count
and computes no formula coefficient values for the pixel. -/
theorem claim_C2 (c : FormulaState) (m n : ℕ)
    (hnum : 0 < c.sample_num m) (hnan : c.fallback_nan = true)
    (hflag : c.sample_flags m = true) (hn : (n : ℤ) < c.sample_num m) :
    j_i c m n = CoefVal.nan ∧ alpha_i c m n = CoefVal.nan := by
  unfold j_i alpha_i
  rw [if_pos ⟨hnum, hn⟩, if_pos ⟨hnan, hflag⟩, if_pos ⟨hnum, hn⟩, if_pos ⟨hnan, hflag⟩]
  exact ⟨rfl, rfl⟩

open FormulaCoefficients in
/-- Witness for C2 at a concrete flagged state. -/
theorem claim_C2_witness :
    j_i stateC2 0 0 = CoefVal.nan ∧ alpha_i stateC2 0 0 = CoefVal.nan :=
  claim_C2 stateC2 0 0 (by norm_num [stateC2]) rfl rfl (by norm_num [stateC2])

open FormulaCoefficients in
/-- Claim C3: for an unflagged processed sample, the stored emission
coefficient is the fluid-frame CGS emissivity divided by the square of the
fluid-frame frequency, the stored absorption coefficient is the fluid-frame
CGS absorptivity multiplied by the fluid-frame frequency, and the
fluid-frame frequency is `-(u^mu k_mu) * momentum_factor`. -/
theorem claim_C3 (c : FormulaState) (m n : ℕ)
    (hnum : 0 < c.sample_num m) (hn : (n : ℤ) < c.sample_num m)
    (hok : ¬(c.fallback_nan = true ∧ c.sample_flags m = true)) :
    j_i c m n
        = CoefVal.val (j_nu_fluid_cgs c m n
            / (nu_fluid_cgs c m n * nu_fluid_cgs c m n))
      ∧ alpha_i c m n
        = CoefVal.val (alpha_nu_fluid_cgs c m n * nu_fluid_cgs c m n)
      ∧ nu_fluid_cgs c m n
        = -(u0 c m n * k_0 c m n + u1 c m n * k_1 c m n
            + u2 c m n * k_2 c m n + u3 c m n * k_3 c m n)
            * c.momentum_factor := by
  unfold j_i alpha_i
  rw [if_pos ⟨hnum, hn⟩, if_neg hok, if_pos ⟨hnum, hn⟩, if_neg hok]
  exact ⟨rfl, rfl, rfl⟩

open FormulaCoefficients in
/-- Witness for C3 at a concrete unflagged state. -/
theorem claim_C3_witness :
    j_i stateC3 0 0
        = CoefVal.val (j_nu_fluid_cgs stateC3 0 0
            / (nu_fluid_cgs stateC3 0 0 * nu_fluid_cgs stateC3 0 0))
      ∧ alpha_i stateC3 0 0
        = CoefVal.val (alpha_nu_fluid_cgs stateC3 0 0 * nu_fluid_cgs stateC3 0 0)
      ∧ nu_fluid_cgs stateC3 0 0
        = -(u0 stateC3 0 0 * k_0 stateC3 0 0 + u1 stateC3 0 0 * k_1 stateC3 0 0
            + u2 stateC3 0 0 * k_2 stateC3 0 0 + u3 stateC3 0 0 * k_3 stateC3 0 0)
            * stateC3.momentum_factor :=
  claim_C3 stateC3 0 0 (by norm_num [stateC3]) (by norm_num [stateC3])
    (by simp [stateC3])

open FormulaCoefficients in
/-- Claim C4: for an unflagged sample written by the routine, nonnegative
`formula_cn0` and `formula_a`, positive `formula_nup`, and a positive
fluid-frame frequency give nonnegative stored emission and absorption
coefficients. -/
theorem claim_C4 (c : FormulaState) (m n : ℕ)
    (hcn0 : 0 ≤ c.formula_cn0) (ha : 0 ≤ c.formula_a)
    (hnup : 0 < c.formula_nup) (hnu : 0 < nu_fluid_cgs c m n)
    (hnum : 0 < c.sample_num m) (hn : (n : ℤ) < c.sample_num m)
    (hok : ¬(c.fallback_nan = true ∧ c.sample_flags m = true)) :
    j_i c m n = CoefVal.val (j_stored c m n) ∧ 0 ≤ j_stored c m n
      ∧ alpha_i c m n = CoefVal.val (alpha_stored c m n)
      ∧ 0 ≤ alpha_stored c m n := by
  refine ⟨?_, ?_, ?_, ?_⟩
  · unfold j_i
    rw [if_pos ⟨hnum, hn⟩, if_neg hok]
  · unfold j_stored j_nu_fluid_cgs n_n0_fluid
    refine div_nonneg ?_ (mul_nonneg hnu.le hnu.le)
    exact mul_nonneg (mul_nonneg hcn0 (Real.exp_pos _).le)
      (Real.rpow_nonneg (div_nonneg hnu.le hnup.le) _)
  · unfold alpha_i
    rw [if_pos ⟨hnum, hn⟩, if_neg hok]
  · unfold alpha_stored alpha_nu_fluid_cgs n_n0_fluid
    refine mul_nonneg ?_ hnu.le
    exact mul_nonneg (mul_nonneg (mul_nonneg ha hcn0) (Real.exp_pos _).le)
      (Real.rpow_nonneg (div_nonneg hnu.le hnup.le) _)

open FormulaCoefficients in
/-- At `stateC4` the fluid-frame frequency of sample (0,0) evaluates to 1:
with zero mass and spin parameters the 4-velocity reduces to
(1, 0, 0, 0) and the momentum is (-1, 0, 0, 0). -/
theorem nu_fluid_cgs_stateC4 : nu_fluid_cgs stateC4 0 0 = 1 := by
  unfold nu_fluid_cgs u0 u1 u2 u3 ut ur uth uph ut_bl ur_bl uth_bl uph_bl
    u_t_bl u_r_bl u_th_bl u_ph_bl u_norm ll gtt_bl gtph_bl grr_bl gthth_bl
    gphph_bl delta sigma cth sth k_0 k_1 k_2 k_3 z stateC4
  norm_num [Real.sqrt_one]

open FormulaCoefficients in
/-- Witness for C4 at the concrete state `stateC4`. -/
theorem claim_C4_witness :
    j_i stateC4 0 0 = CoefVal.val (j_stored stateC4 0 0)
      ∧ 0 ≤ j_stored stateC4 0 0
      ∧ alpha_i stateC4 0 0 = CoefVal.val (alpha_stored stateC4 0 0)
      ∧ 0 ≤ alpha_stored stateC4 0 0 :=
  claim_C4 stateC4 0 0 (by norm_num [stateC4]) (by norm_num [stateC4])
    (by norm_num [stateC4]) (by rw [nu_fluid_cgs_stateC4]; norm_num)
    (by norm_num [stateC4]) (by norm_num [stateC4]) (by simp [stateC4])

/-- The exception component of the constructor run, as a plain decision
tree (the warning accumulation does not influence which exception is
thrown). -/
theorem runConstructor_result (c : InputConfig) :
    (runConstructor c).2 =
      if c.model_type = ModelType.simulation ∧ c.checkpoint_sample_save
          ∧ c.checkpoint_sample_load then
        Except.error "Cannot both save and load a sample checkpoint."
      else if c.model_type = ModelType.simulation ∧ c.slow_light_on
          ∧ (c.checkpoint_sample_save ∨ c.checkpoint_sample_load) then
        Except.error "Cannot use sample checkpoints with slow light."
      else if c.image_light ∧ c.model_type = ModelType.simulation ∧ c.image_polarization
          ∧ c.plasma_kappa_frac ≠ 0 ∧ (c.plasma_kappa < 3.5 ∨ 5 < c.plasma_kappa) then
        Except.error "Polarized transport only supports kappa in [3.5, 5]."
      else if (List.range (renderNumImagesMem c).toNat).any
          (fun i => decide (c.render_num_features i ≤ 0)) then
        Except.error "Must have positive number of features for each rendered image."
      else if noImageOrRendering c then
        Except.error "No image or rendering selected."
      else if 0 < c.adaptive_max_level then
        if ¬c.image_light then
          Except.error "Adaptive ray tracing requires image_light."
        else if c.adaptive_block_size ≤ 0 then
          Except.error "Must have positive adaptive_block_size."
        else if c.camera_resolution % c.adaptive_block_size ≠ 0 then
          Except.error "Must have adaptive_block_size divide camera_resolution."
        else
          Except.ok ()
      else
        Except.ok () := by
  simp only [runConstructor, apply_ite Prod.snd]

/-- Claim C5: with a positive adaptive_max_level, construction throws on a
nonpositive block size or a block size that does not divide the camera
resolution, and with a positive dividing block size it never throws either
of the two block-size exceptions. -/
theorem claim_C5 (c : InputConfig) (hlev : 0 < c.adaptive_max_level) :
    ((c.adaptive_block_size ≤ 0 ∨ c.camera_resolution % c.adaptive_block_size ≠ 0) →
        ∃ e, (runConstructor c).2 = Except.error e)
      ∧ (0 < c.adaptive_block_size → c.camera_resolution % c.adaptive_block_size = 0 →
        (runConstructor c).2 ≠ Except.error "Must have positive adaptive_block_size."
          ∧ (runConstructor c).2
            ≠ Except.error "Must have adaptive_block_size divide camera_resolution.") := by
  constructor
  · intro hbad
    rw [runConstructor_result]
    rcases hbad with hbs | hmod
    · split_ifs <;> first | exact ⟨_, rfl⟩ | omega
    · split_ifs <;> first | exact ⟨_, rfl⟩ | omega
  · intro hbs hmod
    rw [runConstructor_result]
    split_ifs <;>
      first
        | omega
        | (refine ⟨?_, ?_⟩ <;> simp only [ne_eq, Except.error.injEq] <;> decide)
        | (refine ⟨?_, ?_⟩ <;> simp)

/-- Claim C9: in the simulation model, slow light together with either
sample-checkpoint selection makes construction throw. -/
theorem claim_C9 (c : InputConfig)
    (hsim : c.model_type = ModelType.simulation)
    (hslow : c.slow_light_on = true)
    (hcp : c.checkpoint_sample_save = true ∨ c.checkpoint_sample_load = true) :
    ∃ e, (runConstructor c).2 = Except.error e := by
  rw [runConstructor_result]
  split_ifs with h1 h2 <;>
    first
      | exact ⟨_, rfl⟩
      | exact absurd ⟨hsim, hslow, hcp⟩ h2

/-- Witness for C5: adaptive level 1 with block size 0 throws. -/
theorem claim_C5_witness : ∃ e, (runConstructor cfgC5w).2 = Except.error e :=
  (claim_C5 cfgC5w (by norm_num [cfgC5w, baseInput])).1
    (Or.inl (by norm_num [cfgC5w, baseInput]))

/-- Witness for C9 at a concrete slow-light configuration. -/
theorem claim_C9_witness : ∃ e, (runConstructor cfgC9w).2 = Except.error e :=
  claim_C9 cfgC9w rfl rfl (Or.inl rfl)

/-- Claim C6 as amended: a configuration whose member image selections are
all false with zero rendered images always makes construction throw, and
the `No image or rendering selected` exception is thrown exactly under
that condition (construction can throw other exceptions even when a
selection is on, so the original iff over all thrown exceptions fails). -/
theorem claim_C6 (c : InputConfig) :
    (noImageOrRendering c → ∃ e, (runConstructor c).2 = Except.error e)
      ∧ ((runConstructor c).2 = Except.error "No image or rendering selected."
          → noImageOrRendering c) := by
  constructor
  · intro hno
    rw [runConstructor_result]
    split_ifs with h1 h2 h3 h4 h5 <;>
      first
        | exact ⟨_, rfl⟩
        | exact absurd hno h5
  · intro heq
    rw [runConstructor_result] at heq
    split_ifs at heq with h1 h2 h3 h4 h5 h6 h7 h8 h9 <;>
      first
        | exact h5
        | exact Except.noConfusion heq
        | exact absurd (Except.error.inj heq) (by decide)

/-- Witness for C6: with no image selection and no rendering, construction
throws. -/
theorem claim_C6_witness : ∃ e, (runConstructor cfgC6w).2 = Except.error e :=
  (claim_C6 cfgC6w).1
    (by simp [noImageOrRendering, imageLambdaAveMem, imageEmissionAveMem,
      imageTauIntMem, renderNumImagesMem, cfgC6w, baseInput])

/-- Counterexample to C6 as stated: a configuration with `image_light` on
(so not all selections are false) whose construction still throws, because
both sample checkpoints are requested. -/
theorem claim_C6_counterexample :
    (∃ e, (runConstructor cfgC6cex).2 = Except.error e)
      ∧ ¬ noImageOrRendering cfgC6cex := by
  constructor
  · exact ⟨_, by rw [runConstructor_result, if_pos ⟨rfl, rfl, rfl⟩]⟩
  · simp [noImageOrRendering, cfgC6cex, baseInput]

/-- Claim C10 as amended: in a polarized simulation configuration with a
nonzero kappa fraction, a kappa outside [3.5, 5] makes construction throw;
a kappa inside [3.5, 5] never triggers the kappa exception, and if it is
off the tabulated points 3.5, 4, 4.5, 5 and the earlier checkpoint and
slow-light checks pass, the interpolation warning is emitted, with
construction succeeding outright when the remaining rendering and adaptive
checks also pass (the original claim's unconditional success fails because
unrelated checks can still throw). -/
theorem claim_C10 (c : InputConfig)
    (hsim : c.model_type = ModelType.simulation)
    (hlight : c.image_light = true)
    (hpol : c.image_polarization = true)
    (hfrac : c.plasma_kappa_frac ≠ 0) :
    ((c.plasma_kappa < 3.5 ∨ 5 < c.plasma_kappa) →
        ∃ e, (runConstructor c).2 = Except.error e)
      ∧ (3.5 ≤ c.plasma_kappa → c.plasma_kappa ≤ 5 →
        (runConstructor c).2
          ≠ Except.error "Polarized transport only supports kappa in [3.5, 5].")
      ∧ (3.5 ≤ c.plasma_kappa → c.plasma_kappa ≤ 5 →
        c.plasma_kappa ≠ 3.5 → c.plasma_kappa ≠ 4.0 →
        c.plasma_kappa ≠ 4.5 → c.plasma_kappa ≠ 5.0 →
        ¬(c.checkpoint_sample_save = true ∧ c.checkpoint_sample_load = true) →
        ¬(c.slow_light_on = true
            ∧ (c.checkpoint_sample_save = true ∨ c.checkpoint_sample_load = true)) →
        "Polarized transport will interpolate formulas based on kappa."
            ∈ (runConstructor c).1
          ∧ (¬((List.range (renderNumImagesMem c).toNat).any
                  (fun i => decide (c.render_num_features i ≤ 0)) = true) →
             (0 < c.adaptive_max_level →
                0 < c.adaptive_block_size
                  ∧ c.camera_resolution % c.adaptive_block_size = 0) →
             (runConstructor c).2 = Except.ok ())) := by
  refine ⟨?_, ?_, ?_⟩
  · intro hk
    rw [runConstructor_result]
    split_ifs with h1 h2 h3 <;>
      first
        | exact ⟨_, rfl⟩
        | exact absurd ⟨hlight, hsim, hpol, hfrac, hk⟩ h3
  · intro h35 h5
    rw [runConstructor_result]
    split_ifs with h1 h2 h3 <;>
      first
        | (simp only [ne_eq, Except.error.injEq]; decide)
        | (rcases h3 with ⟨-, -, -, -, hlt | hgt⟩ <;> linarith)
        | simp
  · intro h35 h5 hne1 hne2 hne3 hne4 hcpb hslw
    have hg1 : ¬(c.model_type = ModelType.simulation ∧ c.checkpoint_sample_save = true
        ∧ c.checkpoint_sample_load = true) := by
      intro h
      exact hcpb ⟨h.2.1, h.2.2⟩
    have hg2 : ¬(c.model_type = ModelType.simulation ∧ c.slow_light_on = true
        ∧ (c.checkpoint_sample_save = true ∨ c.checkpoint_sample_load = true)) := by
      intro h
      exact hslw ⟨h.2.1, h.2.2⟩
    have hg3 : ¬(c.image_light = true ∧ c.model_type = ModelType.simulation
        ∧ c.image_polarization = true ∧ c.plasma_kappa_frac ≠ 0
        ∧ (c.plasma_kappa < 3.5 ∨ 5 < c.plasma_kappa)) := by
      rintro ⟨-, -, -, -, hlt | hgt⟩ <;> linarith
    constructor
    · show _ ∈ (runConstructor c).1
      simp only [runConstructor, if_neg hg1, if_neg hg2, if_neg hg3]
      simp [List.mem_append, hsim, hlight, hpol, hfrac, hne1, hne2, hne3, hne4]
    · intro hrender hadapt
      rw [runConstructor_result]
      rw [if_neg hg1, if_neg hg2, if_neg hg3, if_neg hrender]
      have hni : ¬ noImageOrRendering c := by
        intro hno
        exact hno (Or.inl hlight)
      rw [if_neg hni]
      split_ifs with h6 h7 h8
      · exact absurd (hadapt h6).1 (by omega)
      · exact absurd (hadapt h6).2 h8
      · rfl
      · rfl

/-- Witness for C10: kappa 4.2 with every other check satisfied emits the
interpolation warning and construction succeeds. -/
theorem claim_C10_witness :
    "Polarized transport will interpolate formulas based on kappa."
        ∈ (runConstructor cfgC10w).1
      ∧ (runConstructor cfgC10w).2 = Except.ok () := by
  have h := (claim_C10 cfgC10w rfl rfl rfl
      (by norm_num [cfgC10w, baseInput])).2.2
    (by norm_num [cfgC10w, baseInput]) (by norm_num [cfgC10w, baseInput])
    (by norm_num [cfgC10w, baseInput]) (by norm_num [cfgC10w, baseInput])
    (by norm_num [cfgC10w, baseInput]) (by norm_num [cfgC10w, baseInput])
    (by simp [cfgC10w, baseInput]) (by simp [cfgC10w, baseInput])
  refine ⟨h.1, h.2 ?_ ?_⟩
  · simp [renderNumImagesMem, cfgC10w, baseInput]
  · simp [cfgC10w, baseInput]

/-- Counterexample to C10 as stated: a polarized simulation configuration
with kappa 3.7 (inside [3.5, 5], off the tabulated points) whose
construction still throws, because both sample checkpoints are
requested. -/
theorem claim_C10_counterexample :
    cfgC10cex.model_type = ModelType.simulation
      ∧ cfgC10cex.image_light = true
      ∧ cfgC10cex.image_polarization = true
      ∧ cfgC10cex.plasma_kappa_frac ≠ 0
      ∧ 3.5 ≤ cfgC10cex.plasma_kappa ∧ cfgC10cex.plasma_kappa ≤ 5
      ∧ cfgC10cex.plasma_kappa ≠ 3.5 ∧ cfgC10cex.plasma_kappa ≠ 4.0
      ∧ cfgC10cex.plasma_kappa ≠ 4.5 ∧ cfgC10cex.plasma_kappa ≠ 5.0
      ∧ (runConstructor cfgC10cex).2 ≠ Except.ok () := by
  refine ⟨rfl, rfl, rfl, by norm_num [cfgC10cex, baseInput],
    by norm_num [cfgC10cex, baseInput], by norm_num [cfgC10cex, baseInput],
    by norm_num [cfgC10cex, baseInput], by norm_num [cfgC10cex, baseInput],
    by norm_num [cfgC10cex, baseInput], by norm_num [cfgC10cex, baseInput], ?_⟩
  rw [runConstructor_result, if_pos ⟨rfl, rfl, rfl⟩]
  simp

open IntegrateModel in
/-- Claim C7: two back-to-back calls to Integrate (first_time cleared by
the first call, no intervening state change, same snapshot and inputs,
starting at level 0 with the first call completing) produce identical
image values, and each call increments the two in-out timers by its own
elapsed intervals instead of overwriting them.  The slow-light/checkpoint
exclusivity enforced by the constructor is assumed. -/
theorem claim_C7 {G Sa Sm Co Im R : Type}
    (cfg : Cfg) (subs : Subs G Sa Sm Co Im R) (snapshot : ℤ)
    (clock1 clock2 : ℕ → ℝ) (s0 : IntState G Sa Sm Co Im R) (ts0 ti0 : ℝ)
    (hlev : s0.adaptive_level = 0)
    (hexcl : ¬(cfg.slow_light_on = true
        ∧ (cfg.checkpoint_sample_save = true ∨ cfg.checkpoint_sample_load = true)))
    (hdone : (Integrate cfg subs snapshot clock1 s0 ts0 ti0).complete = true) :
    (Integrate cfg subs snapshot clock2
          (Integrate cfg subs snapshot clock1 s0 ts0 ti0).state
          (Integrate cfg subs snapshot clock1 s0 ts0 ti0).time_sample
          (Integrate cfg subs snapshot clock1 s0 ts0 ti0).time_integrate).state.image
        = (Integrate cfg subs snapshot clock1 s0 ts0 ti0).state.image
      ∧ (Integrate cfg subs snapshot clock1 s0 ts0 ti0).time_sample
        = ts0 + sampleDelta cfg clock1
      ∧ (Integrate cfg subs snapshot clock1 s0 ts0 ti0).time_integrate
        = ti0 + integrateDelta cfg clock1
      ∧ (Integrate cfg subs snapshot clock2
          (Integrate cfg subs snapshot clock1 s0 ts0 ti0).state
          (Integrate cfg subs snapshot clock1 s0 ts0 ti0).time_sample
          (Integrate cfg subs snapshot clock1 s0 ts0 ti0).time_integrate).time_sample
        = (Integrate cfg subs snapshot clock1 s0 ts0 ti0).time_sample
            + sampleDelta cfg clock2
      ∧ (Integrate cfg subs snapshot clock2
          (Integrate cfg subs snapshot clock1 s0 ts0 ti0).state
          (Integrate cfg subs snapshot clock1 s0 ts0 ti0).time_sample
          (Integrate cfg subs snapshot clock1 s0 ts0 ti0).time_integrate).time_integrate
        = (Integrate cfg subs snapshot clock1 s0 ts0 ti0).time_integrate
            + integrateDelta cfg clock2 := by
  by_cases hsim : cfg.model_type = ModelType.simulation
  · by_cases hmax : 0 < cfg.adaptive_max_level
    · have hmax' : ¬(cfg.adaptive_max_level ≤ 0) := by omega
      simp only [Integrate] at hdone
      by_cases hslow : cfg.slow_light_on = true
      · have hload : cfg.checkpoint_sample_load ≠ true := fun h => hexcl ⟨hslow, Or.inr h⟩
        by_cases hfirst : s0.first_time = true
        · simp [hsim, hmax, hmax', hslow, hload, hfirst, hlev] at hdone
          simp [Integrate, hsim, hmax, hmax', hslow, hload, hfirst, hlev, hdone,
            sampleDelta, integrateDelta]
          try split_ifs <;> rfl
        · simp [hsim, hmax, hmax', hslow, hload, hfirst, hlev] at hdone
          simp [Integrate, hsim, hmax, hmax', hslow, hload, hfirst, hlev, hdone,
            sampleDelta, integrateDelta]
          try split_ifs <;> rfl
      · by_cases hfirst : s0.first_time = true
        · by_cases hload : cfg.checkpoint_sample_load = true
          · simp [hsim, hmax, hmax', hslow, hload, hfirst, hlev] at hdone
            simp [Integrate, hsim, hmax, hmax', hslow, hload, hfirst, hlev, hdone,
              sampleDelta, integrateDelta]
            try split_ifs <;> rfl
          · simp [hsim, hmax, hmax', hslow, hload, hfirst, hlev] at hdone
            simp [Integrate, hsim, hmax, hmax', hslow, hload, hfirst, hlev, hdone,
              sampleDelta, integrateDelta]
            try split_ifs <;> rfl
        · simp [hsim, hmax, hmax', hslow, hfirst, hlev] at hdone
          simp [Integrate, hsim, hmax, hmax', hslow, hfirst, hlev, hdone,
            sampleDelta, integrateDelta]
          try split_ifs <;> rfl
    · have hmax' : cfg.adaptive_max_level ≤ 0 := by omega
      by_cases hslow : cfg.slow_light_on = true
      · have hload : cfg.checkpoint_sample_load ≠ true := fun h => hexcl ⟨hslow, Or.inr h⟩
        by_cases hfirst : s0.first_time = true
        · simp [Integrate, hsim, hmax, hmax', hslow, hload, hfirst, hlev,
            sampleDelta, integrateDelta]
          try split_ifs <;> rfl
        · simp [Integrate, hsim, hmax, hmax', hslow, hload, hfirst, hlev,
            sampleDelta, integrateDelta]
          try split_ifs <;> rfl
      · simp [Integrate, hsim, hmax, hmax', hslow, hlev,
          sampleDelta, integrateDelta]
        try split_ifs <;> rfl
  · simp [Integrate, hsim, sampleDelta, integrateDelta]

open IntegrateModel in
/-- Witness for C7: a concrete formula-model double call over unit data. -/
theorem claim_C7_witness :
    (Integrate cfgC7w subsUnit 0 (fun _ => (0 : ℝ))
          (Integrate cfgC7w subsUnit 0 (fun _ => (0 : ℝ)) stateC7w 0 0).state
          (Integrate cfgC7w subsUnit 0 (fun _ => (0 : ℝ)) stateC7w 0 0).time_sample
          (Integrate cfgC7w subsUnit 0 (fun _ => (0 : ℝ)) stateC7w 0 0).time_integrate).state.image
        = (Integrate cfgC7w subsUnit 0 (fun _ => (0 : ℝ)) stateC7w 0 0).state.image
      ∧ (Integrate cfgC7w subsUnit 0 (fun _ => (0 : ℝ)) stateC7w 0 0).time_sample
        = 0 + sampleDelta cfgC7w (fun _ => (0 : ℝ))
      ∧ (Integrate cfgC7w subsUnit 0 (fun _ => (0 : ℝ)) stateC7w 0 0).time_integrate
        = 0 + integrateDelta cfgC7w (fun _ => (0 : ℝ))
      ∧ (Integrate cfgC7w subsUnit 0 (fun _ => (0 : ℝ))
          (Integrate cfgC7w subsUnit 0 (fun _ => (0 : ℝ)) stateC7w 0 0).state
          (Integrate cfgC7w subsUnit 0 (fun _ => (0 : ℝ)) stateC7w 0 0).time_sample
          (Integrate cfgC7w subsUnit 0 (fun _ => (0 : ℝ)) stateC7w 0 0).time_integrate).time_sample
        = (Integrate cfgC7w subsUnit 0 (fun _ => (0 : ℝ)) stateC7w 0 0).time_sample
            + sampleDelta cfgC7w (fun _ => (0 : ℝ))
      ∧ (Integrate cfgC7w subsUnit 0 (fun _ => (0 : ℝ))
          (Integrate cfgC7w subsUnit 0 (fun _ => (0 : ℝ)) stateC7w 0 0).state
          (Integrate cfgC7w subsUnit 0 (fun _ => (0 : ℝ)) stateC7w 0 0).time_sample
          (Integrate cfgC7w subsUnit 0 (fun _ => (0 : ℝ)) stateC7w 0 0).time_integrate).time_integrate
        = (Integrate cfgC7w subsUnit 0 (fun _ => (0 : ℝ)) stateC7w 0 0).time_integrate
            + integrateDelta cfgC7w (fun _ => (0 : ℝ)) :=
  claim_C7 cfgC7w subsUnit 0 (fun _ => (0 : ℝ)) (fun _ => (0 : ℝ)) stateC7w 0 0
    rfl (by simp [cfgC7w]) rfl

/-- Every tested step of the scan lies between `MIN_DIFF_N` and the
starting step. -/
theorem scan_tested_bounds (z : ℕ → ℝ) (cut : ℤ) :
    ∀ n count nStart k, k ∈ (ZTurnings.scan z cut n count nStart).tested →
      ZTurnings.MIN_DIFF_N ≤ k ∧ k ≤ n := by
  intro n
  induction n using Nat.strong_induction_on with
  | _ n ih =>
    intro count nStart k hk
    unfold ZTurnings.scan at hk
    by_cases hn : n < ZTurnings.MIN_DIFF_N
    · rw [if_pos hn] at hk
      simp at hk
    · rw [if_neg hn] at hk
      simp only [ZTurnings.MIN_DIFF_N] at hn ⊢
      split_ifs at hk with h1 h2 <;>
        simp only [ZTurnings.MIN_DIFF_N, List.mem_cons] at hk <;>
        rcases hk with rfl | hk
      · omega
      · have h := ih (n - 10 - 1) (by omega) _ _ _ hk
        simp only [ZTurnings.MIN_DIFF_N] at h
        omega
      · omega
      · have h := ih (n - 10 - 1) (by omega) _ _ _ hk
        simp only [ZTurnings.MIN_DIFF_N] at h
        omega
      · omega
      · have h := ih (n - 1) (by omega) _ _ _ hk
        simp only [ZTurnings.MIN_DIFF_N] at h
        omega

/-- After the scan counts a turning at step k, none of the `MIN_DIFF_N`
steps directly below k is ever tested. -/
theorem scan_skip (z : ℕ → ℝ) (cut : ℤ) :
    ∀ n count nStart k, k ∈ (ZTurnings.scan z cut n count nStart).tested →
      ZTurnings.countedAt z k →
      ∀ j, k - ZTurnings.MIN_DIFF_N ≤ j → j < k →
        j ∉ (ZTurnings.scan z cut n count nStart).tested := by
  intro n
  induction n using Nat.strong_induction_on with
  | _ n ih =>
    intro count nStart k hk hc j hj1 hj2 hjmem
    unfold ZTurnings.scan at hk hjmem
    by_cases hn : n < ZTurnings.MIN_DIFF_N
    · rw [if_pos hn] at hk
      simp at hk
    · rw [if_neg hn] at hk hjmem
      simp only [ZTurnings.MIN_DIFF_N] at hn hj1
      split_ifs at hk hjmem with h1 h2 <;>
        simp only [ZTurnings.MIN_DIFF_N, List.mem_cons] at hk hjmem <;>
        rcases hk with hkeq | hk <;>
        rcases hjmem with hjeq | hjmem
      · omega
      · have hb := scan_tested_bounds z cut (n - 10 - 1) _ _ j hjmem
        simp only [ZTurnings.MIN_DIFF_N] at hb
        omega
      · have hb := scan_tested_bounds z cut (n - 10 - 1) _ _ k hk
        simp only [ZTurnings.MIN_DIFF_N] at hb
        omega
      · exact ih (n - 10 - 1) (by omega) _ _ k hk hc j (by
          simp only [ZTurnings.MIN_DIFF_N]; omega) hj2 hjmem
      · omega
      · have hb := scan_tested_bounds z cut (n - 10 - 1) _ _ j hjmem
        simp only [ZTurnings.MIN_DIFF_N] at hb
        omega
      · have hb := scan_tested_bounds z cut (n - 10 - 1) _ _ k hk
        simp only [ZTurnings.MIN_DIFF_N] at hb
        omega
      · exact ih (n - 10 - 1) (by omega) _ _ k hk hc j (by
          simp only [ZTurnings.MIN_DIFF_N]; omega) hj2 hjmem
      · rw [hkeq] at hc
        rcases hc with hlt | ⟨heq, hfn⟩
        · exact absurd hlt h1
        · exact absurd ⟨heq, hfn⟩ h2
      · rw [hkeq] at hc
        rcases hc with hlt | ⟨heq, hfn⟩
        · exact absurd hlt h1
        · exact absurd ⟨heq, hfn⟩ h2
      · have hb := scan_tested_bounds z cut (n - 1) _ _ k hk
        simp only [ZTurnings.MIN_DIFF_N] at hb
        omega
      · exact ih (n - 1) (by omega) _ _ k hk hc j (by
          simp only [ZTurnings.MIN_DIFF_N]; omega) hj2 hjmem

open ZTurnings in
/-- Claim C8: the z-turning scan uses the fixed stride `MIN_DIFF_N = 10`
(no dependence on ray_max_steps): only steps between `MIN_DIFF_N` and
`num_steps - MIN_DIFF_N - 1` are ever tested, after a counted turning at a
step the next `MIN_DIFF_N` steps below it are skipped, and the final count
is written into the image's z-turnings channel for the ray. -/
theorem claim_C8 (sample_pos : ℕ → ℕ → ℕ → ℝ) (cut : ℤ) (offsetZ : ℕ)
    (img : ℕ → ℕ → ℝ) (m num_steps : ℕ) (nStart0 count0 : ℤ) :
    MIN_DIFF_N = 10
      ∧ (∀ k ∈ (scan (fun n => sample_pos m n 3) cut
            (num_steps - MIN_DIFF_N - 1) count0 nStart0).tested,
          MIN_DIFF_N ≤ k ∧ k ≤ num_steps - MIN_DIFF_N - 1)
      ∧ (∀ k ∈ (scan (fun n => sample_pos m n 3) cut
            (num_steps - MIN_DIFF_N - 1) count0 nStart0).tested,
          countedAt (fun n => sample_pos m n 3) k →
          ∀ j, k - MIN_DIFF_N ≤ j → j < k →
            j ∉ (scan (fun n => sample_pos m n 3) cut
              (num_steps - MIN_DIFF_N - 1) count0 nStart0).tested)
      ∧ (FindZTurnings sample_pos cut offsetZ img m num_steps nStart0 count0).2.2
          offsetZ m
        = ((scan (fun n => sample_pos m n 3) cut
            (num_steps - MIN_DIFF_N - 1) count0 nStart0).count : ℝ) := by
  refine ⟨rfl, ?_, ?_, ?_⟩
  · intro k hk
    exact scan_tested_bounds _ _ _ _ _ _ hk
  · intro k hk hc j hj1 hj2
    exact scan_skip _ _ _ _ _ _ hk hc j hj1 hj2
  · simp [ZTurnings.FindZTurnings]

/-- Witness for C8: a constant-z ray of 21 steps tests exactly step 10,
inside the claimed bounds. -/
theorem claim_C8_witness :
    ZTurnings.MIN_DIFF_N ≤ 10 ∧ 10 ≤ 21 - ZTurnings.MIN_DIFF_N - 1 := by
  have hbase : ZTurnings.scan (fun _ => (0 : ℝ)) (-1) 9 0 (-1)
      = ⟨0, -1, []⟩ := by
    unfold ZTurnings.scan
    norm_num [ZTurnings.MIN_DIFF_N]
  have hscan : (ZTurnings.scan (fun _ => (0 : ℝ)) (-1) 10 0 (-1)).tested
      = [10] := by
    unfold ZTurnings.scan
    norm_num [ZTurnings.MIN_DIFF_N, ZTurnings.find_1, ZTurnings.find_n,
      ZTurnings.updStart, hbase]
  exact (claim_C8 (fun _ _ _ => (0 : ℝ)) (-1) 0 (fun _ _ => 0) 0 21 (-1) 0).2.1
    10 (by simpa [ZTurnings.MIN_DIFF_N] using hscan ▸ List.mem_singleton.mpr rfl)

end Blacklight
